import Mathlib

set_option synthInstance.maxSize 1024

/-!
Verification development for the resply redis client library.

The definitions below are a shallow embedding of the C++ sources:
  * `RespParser` and its operations embed resp-parser.cc / resp-parser.h
    (the streaming RESP decoder);
  * `command_vec` / `command_var` embed `RespCommandSerializer::command`
    from resply.h (the command encoder);
  * `ClientImpl.receive_responses` / `ClientImpl.send_batch` and
    `Pipeline.send` / `Pipeline.finish_command` embed the client layer of
    libresply.cc;
  * `Redlock.lock` embeds the distributed-lock acquisition loop;
  * `Client.parseAddress` embeds the host:port split of the single-argument
    `Client` constructor.

Strings are modelled as `List Char` (byte strings of the C++ code; all
inputs of interest are 8-bit clean).  Machine integers (`long`,
`long long`) are modelled as `Int`; `size_t` arithmetic is taken modulo
2 ^ 64 at the one place the code can underflow.  Operations that are
undefined behaviour in C++ (`std::string::pop_back` on an empty string,
`std::vector::back` on an empty vector, `std::stol` on a string without
digits, reading past the available data) are modelled in `Except`, with
an error describing the undefined operation.
-/

abbrev Chars := List Char

/-- The `resply::Result::Type` enumeration from resply.h. -/
inductive RType where
  | string
  | integer
  | array
  | protocolError
  | ioError
  | nil
deriving DecidableEq, Repr

/-- The `resply::Result` struct from resply.h: a type tag together with all
three payload fields (`string`, `integer`, `array`), as in the C++ struct.
The default constructor sets the tag to `Nil` and leaves `integer`
indeterminate; the model fixes the indeterminate field to `0`. -/
inductive Result where
  | mk (type : RType) (string : Chars) (integer : Int) (array : List Result)

def Result.type : Result → RType
  | .mk t _ _ _ => t

def Result.string : Result → Chars
  | .mk _ s _ _ => s

def Result.integer : Result → Int
  | .mk _ _ i _ => i

def Result.array : Result → List Result
  | .mk _ _ _ a => a

/-- `resply::Result::Result()`: type is `Nil`, string empty, array empty;
the uninitialized `integer` field is modelled as `0`. -/
def Result.default : Result := .mk .nil [] 0 []

/-- `resply::Result::Result(long long integer)`. -/
def Result.ofInteger (i : Int) : Result := .mk .integer [] i []

def Result.setType : Result → RType → Result
  | .mk _ s i a, t => .mk t s i a

def Result.setString : Result → Chars → Result
  | .mk t _ i a, s => .mk t s i a

def Result.setInteger : Result → Int → Result
  | .mk t s _ a, i => .mk t s i a

def Result.setArray : Result → List Result → Result
  | .mk t s i _, a => .mk t s i a

/-- `result.array.push_back r` / `emplace_back`. -/
def Result.pushArray (r : Result) (e : Result) : Result :=
  r.setArray (r.array ++ [e])

/-- Flatten a `Result` into a decidably-comparable shape: top-level tag,
string and integer, and the (tag, string, integer) triples of the array
elements.  The parser never fills nested arrays, so this projection is
faithful for every value it produces. -/
def Result.flat (r : Result) : RType × Chars × Int × List (RType × Chars × Int) :=
  (r.type, r.string, r.integer, r.array.map fun e => (e.type, e.string, e.integer))

/-- Replace the last element of a list; `none` when the list is empty
(`std::vector::back` on an empty vector is undefined behaviour). -/
def modifyBack (f : α → α) : List α → Option (List α)
  | [] => none
  | [x] => some [f x]
  | x :: y :: xs => (modifyBack f (y :: xs)).map (x :: ·)

/-- The `RespParser::State` enumeration from resp-parser.h. -/
inductive PState where
  | NeedType
  | NeedSize
  | NeedData
  | Finished
deriving DecidableEq, Repr

/-- The `RespParser` state: the (intermediate) result, the machine state,
and the `remaining_bytes_` / `remaining_elements_` counters (C++ `long`). -/
structure RespParser where
  result : Result
  state : PState
  remainingBytes : Int
  remainingElements : Int

/-- `RespParser::RespParser()`: state `NeedType`, `remaining_bytes_`
initialized to `READ_UNTIL_EOL = -1`, `remaining_elements_` to `0`. -/
def RespParser.init : RespParser :=
  { result := Result.default, state := .NeedType,
    remainingBytes := -1, remainingElements := 0 }

/-- Decimal digit test used by the `std::stol` model. -/
def isDigitC (c : Char) : Bool := '0' ≤ c && c ≤ '9'

def digitsToNat (ds : Chars) : Nat :=
  ds.foldl (fun a c => a * 10 + (c.toNat - 48)) 0

/-- Model of `std::stol` / `std::stoll`: skip leading whitespace, read an
optional sign and then at least one decimal digit, stopping at the first
non-digit; `none` models the `std::invalid_argument` exception thrown when
no digits are found.  (All sizes appearing here are far below the `long`
range, so the out-of-range exception is not modelled.) -/
def stol (s : Chars) : Option Int :=
  let s1 := s.dropWhile fun c =>
    c = ' ' || c = '\t' || c = '\n' || c = '\x0b' || c = '\x0c' || c = '\r'
  match s1 with
  | '-' :: rest =>
      let ds := rest.takeWhile isDigitC
      if ds = [] then none else some (-(digitsToNat ds : Int))
  | '+' :: rest =>
      let ds := rest.takeWhile isDigitC
      if ds = [] then none else some (digitsToNat ds)
  | rest =>
      let ds := rest.takeWhile isDigitC
      if ds = [] then none else some (digitsToNat ds)

/-- Model of `std::getline(stream, line)`: the returned line is everything
up to (excluding) the first `'\n'`, which is consumed; at end of stream
the rest of the input is returned as the line (the C++ call cannot tell a
complete unterminated line from a truncated one). -/
def getline (s : Chars) : Chars × Chars :=
  let line := s.takeWhile fun c => c ≠ '\n'
  (line, (s.drop line.length).drop 1)

/-- `RespParser::parse_type(char, Result&)`: the switch over the RESP type
sigil.  Writes the type tag (and, in the default branch, the fixed
diagnostic string) into `result` and yields the next machine state. -/
def RespParser.parseTypeInto (type : Char) (result : Result) : Result × PState :=
  if type = '+' then (result.setType .string, .NeedData)
  else if type = '-' then (result.setType .protocolError, .NeedData)
  else if type = ':' then (result.setType .integer, .NeedData)
  else if type = '$' then (result.setType .string, .NeedSize)
  else if type = '*' then (result.setType .array, .NeedSize)
  else ((result.setType .protocolError).setString "Parsing error.".data, .Finished)

/-- `RespParser::parse_type(char)`: when the top-level result is an array,
a fresh default-constructed `Result` receives the type and is pushed onto
the array; otherwise the top-level result receives it. -/
def RespParser.parse_type (p : RespParser) (c : Char) : RespParser :=
  if p.result.type = .array then
    let (r, st) := RespParser.parseTypeInto c Result.default
    { p with result := p.result.pushArray r, state := st }
  else
    let (r, st) := RespParser.parseTypeInto c p.result
    { p with result := r, state := st }

/-- `RespParser::parse_size(const std::string&)`. -/
def RespParser.parse_size (p : RespParser) (buffer : Chars) : Except String RespParser :=
  match stol buffer with
  | none => .error "stol: invalid argument"
  | some size =>
    if size = -1 then
      if p.result.type = .array then
        match modifyBack (fun r => r.setType .nil) p.result.array with
        | none => .error "vector::back on empty vector"
        | some a2 => .ok { p with result := p.result.setArray a2, state := .Finished }
      else
        .ok { p with result := p.result.setType .nil, state := .Finished }
    else if p.result.type = .array ∧ p.remainingElements = 0 then
      .ok { p with remainingElements := size, state := .NeedType }
    else
      .ok { p with remainingBytes := size, state := .NeedData }

/-- Two `std::string::pop_back()` calls; `none` when a pop would hit an
empty string (undefined behaviour in C++). -/
def popBackTwice (s : Chars) : Option Chars :=
  match s with
  | [] => none
  | _ :: _ =>
    match s.dropLast with
    | [] => none
    | _ :: _ => some s.dropLast.dropLast

/-- The String/ProtocolError/IOError arm of `RespParser::parse_data`. -/
def RespParser.parseDataString (p : RespParser) (buffer : Chars) : Except String RespParser := do
  -- append `buffer` to the current string (array back element or top level)
  let p1 ←
    if p.result.type = .array then
      match modifyBack (fun r => r.setString (r.string ++ buffer)) p.result.array with
      | none => Except.error "vector::back on empty vector"
      | some a2 => pure { p with result := p.result.setArray a2 }
    else
      pure { p with result := p.result.setString (p.result.string ++ buffer) }
  if p1.remainingBytes = -1 then
    -- READ_UNTIL_EOL: response was a simple string; note that the two
    -- pop_back calls act on the *top-level* result string, as in the code
    match popBackTwice p1.result.string with
    | none => Except.error "string::pop_back on empty string"
    | some s2 =>
      pure { p1 with result := p1.result.setString s2, state := .Finished }
  else
    let rb := p1.remainingBytes - (buffer.length : Int)
    if rb ≤ 0 then
      if p1.result.type = .array then
        match p1.result.array.getLast? with
        | none => Except.error "vector::back on empty vector"
        | some last =>
          match popBackTwice last.string with
          | none => Except.error "string::pop_back on empty string"
          | some s2 =>
            match modifyBack (fun r => r.setString s2) p1.result.array with
            | none => Except.error "vector::back on empty vector"
            | some a2 =>
              pure { p1 with result := p1.result.setArray a2,
                             remainingBytes := rb,
                             remainingElements := p1.remainingElements - 1 }
      else
        match popBackTwice p1.result.string with
        | none => Except.error "string::pop_back on empty string"
        | some s2 =>
          pure { p1 with result := p1.result.setString s2,
                         remainingBytes := rb, state := .Finished }
    else
      pure { p1 with remainingBytes := rb }

/-- The Integer arm of `RespParser::parse_data`: inside an array a *new*
element is `emplace_back`ed with the parsed value (the element pushed by
`parse_type` stays in place); at top level the integer field is set. -/
def RespParser.parseDataInteger (p : RespParser) (buffer : Chars) : Except String RespParser :=
  match stol buffer with
  | none => .error "stoll: invalid argument"
  | some v =>
    if p.result.type = .array then
      .ok { p with result := p.result.pushArray (Result.ofInteger v),
                   remainingElements := p.remainingElements - 1 }
    else
      .ok { p with result := p.result.setInteger v, state := .Finished }

/-- `RespParser::parse_data(const std::string&)`. -/
def RespParser.parse_data (p : RespParser) (buffer : Chars) : Except String RespParser := do
  let elemType ←
    if p.result.type = .array then
      match p.result.array.getLast? with
      | none => Except.error "vector::back on empty vector"
      | some e => pure e.type
    else
      pure p.result.type
  let p1 ←
    match elemType with
    | .string | .protocolError | .ioError => p.parseDataString buffer
    | .integer => p.parseDataInteger buffer
    | .array | .nil => pure p
  pure (if p1.remainingBytes ≤ 0 ∧ 0 < p1.remainingElements
        then { p1 with state := .NeedType } else p1)

/-- The while-loop of `RespParser::parse`: one iteration per state-machine
step; the loop runs while the state is not `Finished` and the stream has
data (the trailing `stream.peek()` keeps `eof()` in sync with exhaustion,
and the callers never hand the parser an empty stream).  The fuel is
always at least `input.length + 1`, which the loop can never exhaust since
every iteration consumes at least one character. -/
def RespParser.parseLoop : Nat → RespParser → Chars → Except String (RespParser × Chars)
  | 0, _, _ => .error "out of fuel"
  | fuel + 1, p, input =>
    if p.state = .Finished ∨ input = [] then .ok (p, input)
    else
      match p.state, input with
      | .NeedType, c :: rest => RespParser.parseLoop fuel (p.parse_type c) rest
      | .NeedSize, _ => do
        let (line, rest) := getline input
        -- line.pop_back(): undefined behaviour on an empty line
        match line with
        | [] => Except.error "string::pop_back on empty string"
        | _ :: _ => do
          let p2 ← p.parse_size line.dropLast
          RespParser.parseLoop fuel p2 rest
      | .NeedData, _ => do
        let (line, rest) := getline input
        -- line.back(): undefined behaviour on an empty line
        match line.getLast? with
        | none => Except.error "string::back on empty string"
        | some b => do
          let p2 ← p.parse_data (if b = '\r' then line ++ ['\n'] else line)
          RespParser.parseLoop fuel p2 rest
      | .Finished, _ => .ok (p, input)
      | _, [] => .ok (p, input)

/-- `RespParser::parse(std::istream&)`: run the loop over the available
data, then apply the completed-array check, and return the updated parser,
the unconsumed rest of the stream, and the boolean result of
`remaining_bytes_ <= 0 || remaining_elements_ ? false : state_ != Finished`. -/
def RespParser.parse (p : RespParser) (input : Chars) : Except String (RespParser × Chars × Bool) := do
  let (p1, rest) ← RespParser.parseLoop (input.length + 1) p input
  let p2 := if p1.result.type = .array ∧ p1.remainingElements = 0
            then { p1 with state := .Finished } else p1
  pure (p2, rest,
        if p2.remainingBytes ≤ 0 ∨ p2.remainingElements ≠ 0 then false
        else decide (p2.state ≠ .Finished))

/-- Drive a single `RespParser` over consecutive chunks: call `parse` on
each chunk in order until it reports that no more data is needed, then
read off `result()` (this is how `ClientImpl::receive_responses` drives
the parser, one chunk per `read_until` delivery). -/
def driveChunks : RespParser → List Chars → Except String Result
  | _, [] => .error "out of chunks"
  | p, c :: cs => do
    let (p1, _, more) ← p.parse c
    if more then driveChunks p1 cs else pure p1.result

/-- One iteration block of `ClientImpl::receive_responses`: the do-while
loop that drives a fresh parser for one response.  `buf` is the current
content of the `asio::streambuf`; `reads` are the successive deliveries of
`asio::read_until` (each one a byte sequence containing at least one
newline, exactly as the socket happened to deliver it).  When the buffer
is empty the next delivery is taken; running out of deliveries models a
read that blocks forever.  The fuel is immaterial as long as it exceeds
the number of deliveries (a continuing parser always has consumed its
whole buffer). -/
def ClientImpl.receiveOne : Nat → RespParser → Chars → List Chars →
    Except String (Result × Chars × List Chars)
  | 0, _, _, _ => .error "out of fuel"
  | fuel + 1, p, buf, reads =>
    if buf = [] then
      match reads with
      | [] => .error "read_until would block: no more data"
      | r :: rs => do
        let (p1, leftover, more) ← p.parse r
        if more then ClientImpl.receiveOne fuel p1 leftover rs
        else pure (p1.result, leftover, rs)
    else do
      let (p1, leftover, more) ← p.parse buf
      if more then ClientImpl.receiveOne fuel p1 leftover reads
      else pure (p1.result, leftover, reads)

/-- `ClientImpl::receive_responses(size_t num)`: read `num` responses,
each with a fresh `RespParser`, with the streambuf contents surviving
from one response to the next. -/
def ClientImpl.receive_responses : Nat → Chars → List Chars →
    Except String (List Result × Chars × List Chars)
  | 0, buf, reads => .ok ([], buf, reads)
  | n + 1, buf, reads => do
    let (r, buf1, reads1) ←
      ClientImpl.receiveOne (reads.length + 1) RespParser.init buf reads
    let (rs, buf2, reads2) ← ClientImpl.receive_responses n buf1 reads1
    pure (r :: rs, buf2, reads2)

/-- `ClientImpl::send_batch`: one `asio::write` of the
`std::accumulate`-concatenation of the commands, then
`receive_responses(commands.size())`.  The returned pair is the list of
socket writes performed and the list of results. -/
def ClientImpl.send_batch (commands : List Chars) (reads : List Chars) :
    Except String (List Chars × List Result) := do
  let (rs, _, _) ← ClientImpl.receive_responses commands.length [] reads
  pure ([commands.flatten], rs)

/-- One bulk-string frame of the command encoder:
`builder << '$' << part.length() << "\r\n" << part << "\r\n"`. -/
def bulkFrame (part : Chars) : Chars :=
  '$' :: (toString part.length).data ++ "\r\n".data ++ part ++ "\r\n".data

/-- The loop body of `RespCommandSerializer::command(const std::vector<std::string>&)`
(and the unrolled recursion of its variadic variant): append one
bulk-string frame per argument to the builder. -/
def commandLoop (builder : Chars) : List Chars → Chars
  | [] => builder
  | part :: rest => commandLoop (builder ++ bulkFrame part) rest

/-- `RespCommandSerializer::command(const std::vector<std::string>& str)`:
empty vectors encode to nothing; otherwise an array header with the
element count followed by the bulk-string frames. -/
def command_vec (str : List Chars) : Chars :=
  if str = [] then []
  else commandLoop ('*' :: (toString str.length).data ++ "\r\n".data) str

/-- An argument of the variadic `command(str, args...)` overload: either a
string or an integral value (the `std::enable_if<std::is_integral<T>>`
specialization). -/
inductive CmdArg where
  | str (s : Chars)
  | num (n : Int)

/-- The number specialization forwards `std::to_string(num)` to the string
case; strings pass through unchanged. -/
def CmdArg.chars : CmdArg → Chars
  | .str s => s
  | .num n => (toString n).data

/-- The variadic `command(const std::string& str, ArgTypes... args)`:
empty command names encode to nothing; otherwise a header with
`sizeof...(ArgTypes) + 1` followed by the frame of the name and of each
argument in order. -/
def command_var (str : Chars) (args : List CmdArg) : Chars :=
  if str = [] then []
  else commandLoop ('*' :: (toString (args.length + 1)).data ++ "\r\n".data)
         (str :: args.map CmdArg.chars)

/-- Substring search helper (model of `std::string::find` returning
whether the needle occurs): does `pat` start `s`? -/
def leadsWith : Chars → Chars → Bool
  | [], _ => true
  | _ :: _, [] => false
  | p :: ps, c :: cs => p = c && leadsWith ps cs

/-- Does `pat` occur anywhere in `s` (`find(pat) != npos`)? -/
def occursIn (pat : Chars) : Chars → Bool
  | [] => leadsWith pat []
  | c :: cs => leadsWith pat (c :: cs) || occursIn pat cs

/-- `Client::Pipeline`: the batch of already-encoded commands. -/
structure Pipeline where
  commands : List Chars

/-- `Client::Pipeline::finish_command(const std::string& command)`.
The C++ declares `std::string lower;` and then runs
`std::transform(command.begin(), command.end(), lower.begin(), ::tolower)`,
writing through the begin iterator of the *empty* string `lower` without
ever growing it (there is no `back_inserter` and no resize): the
observable content of `lower` stays empty, so the subsequent
`lower.find("subscribe") == npos` test always passes.  The command is
appended (with CRLF) whenever it is non-empty. -/
def Pipeline.finish_command (p : Pipeline) (command : Chars) : Pipeline :=
  let lower : Chars := []
  if command ≠ [] ∧ occursIn "subscribe".data lower = false then
    { p with commands := p.commands ++ [command ++ "\r\n".data] }
  else p

/-- `Client::Pipeline::send()`: an empty batch returns an empty vector
without touching the socket; otherwise `send_batch` performs its single
write of the concatenated batch and the batch is cleared.  `net` abstracts
the results `send_batch` produces for the batch; the third component is
the list of socket writes performed. -/
def Pipeline.send (p : Pipeline) (net : List Chars → List Result) :
    List Result × Pipeline × List Chars :=
  if p.commands.isEmpty then ([], p, [])
  else (net p.commands, { commands := [] }, [p.commands.flatten])

/-- The host/port split performed by
`Client::Client(const std::string& address, size_t timeout)`:
`std::getline(sstream, host, ':')` reads up to (and consumes) the first
colon, or the whole address when there is none; `std::getline(sstream, port)`
then reads the remainder — when the first `getline` already exhausted the
stream the second one fails and `port` keeps its default-constructed empty
value. -/
def Client.parseAddress (address : Chars) : Chars × Chars :=
  let host := address.takeWhile fun c => c ≠ ':'
  let port := if host.length = address.length then []
              else address.drop (host.length + 1)
  (host, port)

/-- `Redlock::lock(size_t ttl)`, with the interaction with the clients and
the clock abstracted into oracles: `outcomes round` lists, per backing
client, whether the round's `SET resource value NX PX ttl` returned "OK"
(`Redlock::lock_instance`), and `elapsed round` is the value of
`get_system_clock_ms() - start_time` measured in that round.  `locked`
accumulates the successes; `drift = ttl / CLOCK_DRIFT_DIV` with
`CLOCK_DRIFT_DIV = 100`; `valid_time` is computed in `size_t` arithmetic,
i.e. modulo 2^64.  On a failed round the code unlocks everywhere, sleeps
a random delay and retries; exhausting `retry_count_` rounds returns 0. -/
def Redlock.lockAux (ttl : Nat) (numClients : Nat) (outcomes : Nat → List Bool)
    (elapsed : Nat → Int) : Nat → Nat → Nat
  | _, 0 => 0
  | round, remaining + 1 =>
    let locked := (outcomes round).count true
    let drift := ttl / 100
    let validTime : Nat := (((ttl : Int) - elapsed round - (drift : Int)).emod (2 ^ 64)).toNat
    if numClients / 2 + 1 ≤ locked ∧ 0 < validTime then validTime
    else Redlock.lockAux ttl numClients outcomes elapsed (round + 1) remaining

/-- Entry point of `Redlock::lock`: start at round 0 with the configured
retry budget (`retry_count_`, default 3). -/
def Redlock.lock (ttl retryCount numClients : Nat) (outcomes : Nat → List Bool)
    (elapsed : Nat → Int) : Nat :=
  Redlock.lockAux ttl numClients outcomes elapsed 0 retryCount

section Theorems

/-- Equality of `Except` values is decidable when it is on both sides;
used to settle the concrete evaluations below by `decide`. -/
instance {ε α : Type} [DecidableEq ε] [DecidableEq α] : DecidableEq (Except ε α)
  | .ok a, .ok b =>
    if h : a = b then .isTrue (by rw [h]) else .isFalse (by simp [h])
  | .error e, .error f =>
    if h : e = f then .isTrue (by rw [h]) else .isFalse (by simp [h])
  | .ok _, .error _ => .isFalse (by simp)
  | .error _, .ok _ => .isFalse (by simp)

/-- C1: the claim states that parsing a valid encoded message in chunks
(calling `parse` on consecutive non-empty chunks until it reports that no
more data is needed) always yields the same decoded `Result` as one parse
of the whole message.  The code violates this: splitting the message
`"+OK\r\n"` as `"+OK"` / `"\r\n"` makes the first `parse` call treat the
truncated line as a complete simple string, pop two payload characters,
enter `Finished` and report that no more data is needed, yielding
`String ""`, whereas the whole message decodes to `String "OK"`. -/
theorem c1_chunked_parse_diverges_from_whole :
    (driveChunks RespParser.init ["+OK".data, "\r\n".data]).map Result.flat
      = .ok (.string, [], 0, [])
    ∧ (RespParser.init.parse "+OK\r\n".data).map (fun t => t.1.result.flat)
      = .ok (.string, "OK".data, 0, [])
    ∧ ([] : Chars) ≠ "OK".data := by
  exact ⟨by decide, by decide, by decide⟩

/-- C2: the claim states that a round of `Redlock::lock` acquires the lock
exactly when the success count reaches the quorum *and* the validity
`ttl - elapsed - ttl/100` is positive.  The code computes `valid_time` in
`size_t` arithmetic: with `ttl = 100` and a round that took 200 ms the
mathematical validity is `100 - 200 - 1 = -101 < 0`, but the unsigned
subtraction wraps to `2^64 - 101` and the lock is reported acquired with
that huge validity. -/
theorem c2_lock_acquires_on_negative_validity :
    Redlock.lock 100 3 3 (fun _ => [true, true, true]) (fun _ => 200)
      = 18446744073709551515
    ∧ (100 : Int) - 200 - 100 / 100 < 0 := by
  exact ⟨by decide, by decide⟩

/-- C3: the claim states that `Pipeline::send` performs one write of the
concatenated batch and then returns exactly `k` Results, the i-th being
the decode of the i-th response frame.  The single concatenated write and
the result count hold, but the i-th result need not be the decode of the
i-th frame: when `asio::read_until` delivers the reply stream
`"*1\r\n$1\r\na\r\n:2\r\n"` line-by-line (a legal delivery, each chunk
ends in a newline), `parse` reports completion after the bare array
header, so the first result is an empty array and the second result is
the array's element — neither matches the frame-by-frame decodes
`Array [String "a"]` and `Integer 2` computed below. -/
theorem c3_pipelined_results_not_framewise_decodes :
    (ClientImpl.send_batch ["CMD1\r\n".data, "CMD2\r\n".data]
        ["*1\r\n".data, "$1\r\na\r\n".data, ":2\r\n".data]).map
        (fun t => (t.1, t.2.map Result.flat))
      = .ok (["CMD1\r\nCMD2\r\n".data],
             [(.array, [], 0, []), (.string, "a".data, 0, [])])
    ∧ (RespParser.init.parse "*1\r\n$1\r\na\r\n".data).map (fun t => t.1.result.flat)
      = .ok (.array, [], 0, [(.string, "a".data, 0)])
    ∧ (RespParser.init.parse ":2\r\n".data).map (fun t => t.1.result.flat)
      = .ok (.integer, [], 2, [])
    ∧ ((RType.array, ([] : Chars), (0 : Int), ([] : List (RType × Chars × Int)))
        ≠ (.array, [], 0, [(.string, "a".data, 0)])) := by
  exact ⟨by decide, by decide, by decide, by decide⟩

/-- C4: the claim states that a decoded array reply with declared count N
contains exactly N elements, each parsed element (including integers)
appended exactly once.  The code appends integer elements twice: for the
reply `"*1\r\n:5\r\n"` (declared count 1) `parse_type` pushes a
placeholder element of type Integer and `parse_data` then
`emplace_back`s a second element carrying the value, so the decoded array
has two elements instead of one. -/
theorem c4_integer_array_element_appended_twice :
    (RespParser.init.parse "*1\r\n:5\r\n".data).map (fun t => t.1.result.flat)
      = .ok (.array, [], 0, [(.integer, [], 0), (.integer, [], 5)])
    ∧ (RespParser.init.parse "*1\r\n:5\r\n".data).map
        (fun t => t.1.result.array.length) = .ok 2
    ∧ (2 : Nat) ≠ 1 := by
  exact ⟨by decide, by decide, by decide⟩

/-- C5: the claim states that a bulk string of declared length -1 decodes
to Nil, that an array of declared count -1 decodes to Nil, and that the
three-element MGET reply decodes to Array[String "1", String "2", Nil].
The first and third parts hold, but an array of declared count -1 does
not decode to Nil: because the top-level result type is already Array
when the size line is read, `parse_size` takes `result_.array.back()` of
the still-empty element vector — undefined behaviour in C++, an error in
this model. -/
theorem c5_nil_decoding :
    (RespParser.init.parse "$-1\r\n".data).map (fun t => t.1.result.flat)
      = .ok (.nil, [], 0, [])
    ∧ RespParser.init.parse "*-1\r\n".data = .error "vector::back on empty vector"
    ∧ (RespParser.init.parse "*3\r\n$1\r\n1\r\n$1\r\n2\r\n$-1\r\n".data).map
        (fun t => t.1.result.flat)
      = .ok (.array, [], 0,
             [(.string, "1".data, 0), (.string, "2".data, 0), (.nil, [], 0)]) := by
  refine ⟨by decide, rfl, by decide⟩

/-- C6: a value whose first byte is none of the five RESP type sigils
decodes to a `ProtocolError` result whose string is exactly
"Parsing error.", with the parser in the `Finished` state and reporting
that no further data is needed — the failure is delivered as a value to
the caller. -/
theorem c6_unknown_sigil_protocol_error (c : Char) (rest : Chars)
    (h1 : c ≠ '+') (h2 : c ≠ '-') (h3 : c ≠ ':') (h4 : c ≠ '$') (h5 : c ≠ '*') :
    RespParser.init.parse (c :: rest)
      = .ok ({ result := .mk .protocolError "Parsing error.".data 0 [],
               state := .Finished, remainingBytes := -1, remainingElements := 0 },
             rest, false) := by
  simp [RespParser.parse, RespParser.parseLoop, RespParser.parse_type,
        RespParser.parseTypeInto, RespParser.init, Result.default, Result.type,
        Result.setType, Result.setString, h1, h2, h3, h4, h5]

/-- Witness for C6 at the concrete sigil '?'. -/
theorem c6_unknown_sigil_protocol_error_witness :
    RespParser.init.parse ('?' :: "rest of stream".data)
      = .ok ({ result := .mk .protocolError "Parsing error.".data 0 [],
               state := .Finished, remainingBytes := -1, remainingElements := 0 },
             "rest of stream".data, false) :=
  c6_unknown_sigil_protocol_error '?' "rest of stream".data
    (by decide) (by decide) (by decide) (by decide) (by decide)

/-- The builder loop of the command serializer appends exactly one
bulk-string frame per argument, in order. -/
lemma commandLoop_eq (l : List Chars) :
    ∀ builder, commandLoop builder l = builder ++ (l.map bulkFrame).flatten := by
  induction l with
  | nil => intro b; simp [commandLoop]
  | cons p rest ih => intro b; simp [commandLoop, ih]

/-- C7: for a non-empty argument list the encoder emits the array header
with the element count followed by one length-prefixed bulk-string frame
per argument in order, and the variadic overload additionally renders
integral arguments as their decimal text before framing them as bulk
strings (its count is the argument count plus one for the command name). -/
theorem c7_encoder_exact_bytes (args : List Chars) (h : args ≠ [])
    (name : Chars) (cargs : List CmdArg) (hn : name ≠ []) :
    command_vec args
      = '*' :: (toString args.length).data ++ "\r\n".data ++ (args.map bulkFrame).flatten
    ∧ command_var name cargs
      = '*' :: (toString (cargs.length + 1)).data ++ "\r\n".data
          ++ bulkFrame name ++ ((cargs.map CmdArg.chars).map bulkFrame).flatten := by
  constructor
  · simp [command_vec, h, commandLoop_eq]
  · simp [command_var, hn, commandLoop_eq]

/-- Witness for C7: a concrete one-argument command and a concrete
variadic command mixing a string and an integer argument. -/
theorem c7_encoder_exact_bytes_witness :
    command_vec ["PING".data]
      = '*' :: (toString (["PING".data] : List Chars).length).data ++ "\r\n".data
          ++ ((["PING".data] : List Chars).map bulkFrame).flatten
    ∧ command_var "SET".data [.str "a".data, .num 5]
      = '*' :: (toString (([CmdArg.str "a".data, .num 5] : List CmdArg).length + 1)).data
          ++ "\r\n".data ++ bulkFrame "SET".data
          ++ ((([CmdArg.str "a".data, .num 5] : List CmdArg).map CmdArg.chars).map
                bulkFrame).flatten :=
  c7_encoder_exact_bytes ["PING".data] (by decide) "SET".data
    [.str "a".data, .num 5] (by decide)

/-- C8: the claim states that commands whose lowercase form contains
"subscribe" are rejected from a pipeline batch.  The code violates this:
the lowercase copy is produced by a `std::transform` into the begin
iterator of an empty string, so the string that is searched stays empty
and the containment test never fires — the command "subscribe foo",
whose lowercase form does contain "subscribe", is appended to the batch. -/
theorem c8_subscribe_commands_not_rejected :
    (Pipeline.finish_command { commands := [] } "subscribe foo".data).commands
      = ["subscribe foo\r\n".data]
    ∧ occursIn "subscribe".data ("subscribe foo".data.map Char.toLower) = true := by
  exact ⟨by decide, by decide⟩

/-- C9: the claim states that the single-argument `Client` constructor
splits "host[:port]" and defaults the port to "6379" when no colon is
present.  The split at the first colon is implemented, but with no colon
the second `std::getline` fails and the port stays the empty string — it
is never defaulted to "6379". -/
theorem c9_port_not_defaulted :
    Client.parseAddress "example.org:6380".data = ("example.org".data, "6380".data)
    ∧ Client.parseAddress "example.org".data = ("example.org".data, [])
    ∧ ([] : Chars) ≠ "6379".data := by
  exact ⟨by decide, by decide, by decide⟩

/-- C10: sending an empty pipeline batch returns the empty vector and
performs no socket write, and since `send` clears the batch, a second
`send` with no intervening commands also returns the empty vector and
writes nothing. -/
theorem c10_empty_pipeline_send (net : List Chars → List Result) (p : Pipeline) :
    Pipeline.send { commands := [] } net = ([], { commands := [] }, [])
    ∧ Pipeline.send (Pipeline.send p net).2.1 net
        = ([], (Pipeline.send p net).2.1, []) := by
  constructor
  · simp [Pipeline.send]
  · rcases p with ⟨cmds⟩
    cases cmds <;> simp [Pipeline.send]

end Theorems
